import Mathlib

/-!
Verification of the ComfyUI asset generator (`comfy_asset_generator.py`)
against its natural-language specification.

The program is shallowly embedded: every network / filesystem / clock
interaction is resolved through an explicit environment record
(`ServerEnv`), and every externally visible side effect is recorded in an
effect trace (`List Effect`).  Pure functions of the source become pure
Lean functions; the poll loop becomes a structurally recursive function
whose recursion argument is exactly the number of remaining 1-second poll
iterations before the 120-second ceiling is crossed.
-/

namespace ComfyGen

/-- JSON-like values appearing in a ComfyUI workflow graph: strings,
integers, numeric literals carried verbatim (as rationals, since the
program never computes with them), and node-output references
`[node_id, slot]`. -/
inductive JValue where
  | s : String → JValue
  | i : Int → JValue
  | f : Rat → JValue
  | ref : String → Nat → JValue
  deriving DecidableEq, Repr

/-- One workflow node: a Python dict `{"class_type": ..., "inputs": {...}}`,
with the inputs dict embedded as an association list (Python dicts preserve
insertion order). -/
structure Node where
  class_type : String
  inputs : List (String × JValue)
  deriving DecidableEq, Repr

/-- A workflow graph: mapping from node id to node, in insertion order. -/
abbrev Workflow := List (String × Node)

/-- One entry of a history record's `images` list:
`{"filename": ..., "subfolder": ...}`. -/
structure ImageInfo where
  filename : String
  subfolder : String
  deriving DecidableEq, Repr

/-- The output of one node in a history record: `{"images": [...]}`
(`node_output.get("images", [])` makes the field total, defaulting to `[]`). -/
structure NodeOutput where
  images : List ImageInfo
  deriving DecidableEq, Repr

/-- A history record: `{"outputs": {node_id: NodeOutput, ...}}`. -/
structure HistoryRecord where
  outputs : List (String × NodeOutput)
  deriving DecidableEq, Repr

/-- The environment a single `generate_asset` invocation runs against.  It
fixes the responses of every external interaction:
`serverRunning` — whether `GET /system_stats` succeeds (`is_server_running`);
`checkpoints` — the `ckpt_name` list extracted from `GET /object_info`
(`none` models a network/parse failure of `get_models`);
`timeMs` — `int(time.time() * 1000)` at build time;
`template` — the parsed `FLUX-DEV-GGUF.json` template, `none` when the file
is absent or not valid JSON (`load_workflow_template` returns `None`);
`promptId` — the `prompt_id` field of the `POST /prompt` response (`none`
models a failed submission);
`history` — the `GET /history/{id}` response as a function of elapsed
whole seconds since submission;
`download` — the `GET /view` response for a `(filename, subfolder)` pair,
as a byte count (`none` models a network failure, `some 0` an empty body). -/
structure ServerEnv where
  serverRunning : Bool
  checkpoints : Option (List String)
  timeMs : Nat
  template : Option Workflow
  promptId : Option String
  history : Nat → Option HistoryRecord
  download : String → String → Option Nat

/-- Python truthiness test `if not x:` for an `Optional[str]`: `None` and
the empty string are falsy. -/
def falsy : Option String → Bool
  | none => true
  | some s => s == ""

/-- `get_models`: extracts the checkpoint list and returns
`sorted(checkpoints) if checkpoints else []`; any fetch/parse failure
(modelled as `resp = none`) yields `[]`. -/
def get_models (resp : Option (List String)) : List String :=
  match resp with
  | none => []
  | some cps => if cps.isEmpty then [] else List.insertionSort (· ≤ ·) cps

/-- The model-name defaulting of `create_fallback_workflow`:
`if not model: models = self.get_models(); model = models[0] if models
else "model.safetensors"`. -/
def pickModel (env : ServerEnv) (model : Option String) : String :=
  if falsy model then
    match get_models env.checkpoints with
    | [] => "model.safetensors"
    | m :: _ => m
  else model.getD ""

/-- Seed defaulting used by both builders:
`if seed == -1: seed = int(time.time() * 1000) % 2147483647`. -/
def deriveSeed (env : ServerEnv) (seed : Int) : Int :=
  if seed = -1 then ((env.timeMs % 2147483647 : Nat) : Int) else seed

/-- `create_fallback_workflow`: the programmatic 7-node text-to-image
graph, transcribed node for node from the source. -/
def create_fallback_workflow (env : ServerEnv) (prompt : String) (model : Option String)
    (steps : Int) (cfg : Rat) (width height : Int) (seed : Int) : Workflow :=
  let model : String := pickModel env model
  let seed : Int := deriveSeed env seed
  [("1", ⟨"CheckpointLoaderSimple", [("ckpt_name", JValue.s model)]⟩),
   ("2", ⟨"CLIPTextEncode", [("clip", JValue.ref "1" 1), ("text", JValue.s prompt)]⟩),
   ("3", ⟨"CLIPTextEncode", [("clip", JValue.ref "1" 1),
      ("text", JValue.s "low quality, blurry, artifacts, bad anatomy")]⟩),
   ("4", ⟨"EmptyLatentImage", [("width", JValue.i width), ("height", JValue.i height),
      ("batch_size", JValue.i 1)]⟩),
   ("5", ⟨"KSampler", [("model", JValue.ref "1" 0), ("positive", JValue.ref "2" 0),
      ("negative", JValue.ref "3" 0), ("latent_image", JValue.ref "4" 0),
      ("seed", JValue.i seed), ("steps", JValue.i steps), ("cfg", JValue.f cfg),
      ("sampler_name", JValue.s "euler"), ("scheduler", JValue.s "normal"),
      ("denoise", JValue.f 1)]⟩),
   ("6", ⟨"VAEDecode", [("samples", JValue.ref "5" 0), ("vae", JValue.ref "1" 2)]⟩),
   ("7", ⟨"SaveImage", [("filename_prefix", JValue.s "TetrisAsset"),
      ("images", JValue.ref "6" 0)]⟩)]

/-- Reads the value of input `key` of node `nid` in a workflow. -/
def getInput (wf : Workflow) (nid key : String) : Option JValue :=
  (wf.lookup nid).bind fun node => node.inputs.lookup key

/-- Python dict assignment `d[k] = v` on an association list: overwrites in
place if the key exists, appends at the end otherwise. -/
def setKey (kvs : List (String × JValue)) (k : String) (v : JValue) : List (String × JValue) :=
  match kvs with
  | [] => [(k, v)]
  | (k', v') :: rest => if k' = k then (k, v) :: rest else (k', v') :: setKey rest k v

/-- Replaces the node stored under `nid` (no-op when absent). -/
def updateNode : Workflow → String → Node → Workflow
  | [], _, _ => []
  | (k, n) :: rest, nid, node =>
    if k = nid then (k, node) :: rest else (k, n) :: updateNode rest nid node

/-- `workflow[nid]["inputs"][key] = v`: raises `KeyError` (modelled as
`Except.error`) when node `nid` is absent, exactly as the Python subscript
does. -/
def setNodeInput (wf : Workflow) (nid key : String) (v : JValue) : Except String Workflow :=
  match wf.lookup nid with
  | none => Except.error ("KeyError: " ++ nid)
  | some node => Except.ok (updateNode wf nid ⟨node.class_type, setKey node.inputs key v⟩)

/-- `load_workflow_template`: returns the parsed template, or `None` when
the file is absent (`FileNotFoundError`) or not valid JSON
(`json.JSONDecodeError`); both cases are folded into `env.template = none`. -/
def load_workflow_template (env : ServerEnv) : Option Workflow :=
  env.template

/-- `create_workflow`: uses the template when one loads and is non-empty
(`if not workflow:` also treats an empty parsed dict as missing), falling
back to `create_fallback_workflow` otherwise; on the template path it
mutates the hard-coded node ids 47/42/45/49/46 (and 4 when a model is
given) by subscripting, so a parseable template lacking one of them raises
an uncaught `KeyError` — modelled as `Except.error`. -/
def create_workflow (env : ServerEnv) (prompt : String) (model : Option String)
    (steps : Int) (cfg : Rat) (width height : Int) (seed : Int) : Except String Workflow :=
  match load_workflow_template env with
  | none => Except.ok (create_fallback_workflow env prompt model steps cfg width height seed)
  | some workflow =>
    if workflow.isEmpty then
      Except.ok (create_fallback_workflow env prompt model steps cfg width height seed)
    else
      let seed : Int := deriveSeed env seed
      do
        let w ← setNodeInput workflow "47" "text" (JValue.s prompt)
        let w ← setNodeInput w "42" "noise_seed" (JValue.i seed)
        let w ← setNodeInput w "45" "steps" (JValue.i steps)
        let w ← setNodeInput w "49" "guidance" (JValue.f cfg)
        let w ← setNodeInput w "46" "width" (JValue.i width)
        let w ← setNodeInput w "46" "height" (JValue.i height)
        match model with
        | none => pure w
        | some m => if m = "" then pure w else setNodeInput w "4" "ckpt_name" (JValue.s m)

/-- Every externally visible side effect of one invocation, in the order
the program performs them. -/
inductive Effect where
  | healthCheck
  | queuePrompt (wf : Workflow)
  | getHistory (elapsed : Nat)
  | sleep (secs : Nat)
  | downloadImage (filename subfolder : String)
  | writeFile (path : String) (bytes : Nat)
  | mkdirOutput (dir : String)
  deriving DecidableEq, Repr

/-- The client object: the five fields set by `__init__`, never reassigned. -/
structure Generator where
  host : String
  port : Nat
  base_url : String
  client_id : String
  output_dir : String
  deriving DecidableEq, Repr

/-- `ComfyUIAssetGenerator.__init__`: stores the configuration and calls
`self.output_dir.mkdir(exist_ok=True)` — a filesystem side effect,
recorded in the returned trace. -/
def generator_init (host : String) (port : Nat) (client_id : String)
    (output_dir : String) : Generator × List Effect :=
  (⟨host, port, "http://" ++ host ++ ":" ++ toString port, client_id, output_dir⟩,
   [Effect.mkdirOutput output_dir])

/-- Python truthiness of the downloaded body `if not image_data:`:
a failed download (`None`) and an empty body (`b""`) are both falsy. -/
def dataFalsy : Option Nat → Bool
  | none => true
  | some b => b == 0

/-- `os.path.splitext` restricted to a bare filename (no path separator):
splits at the last dot provided some character before it is not a dot
(so purely-dotted prefixes such as `".bashrc"` keep their dot). -/
def rfindDot : List Char → Option Nat
  | [] => none
  | c :: cs =>
    match rfindDot cs with
    | some i => some (i + 1)
    | none => if c = '.' then some 0 else none

/-- See `rfindDot`; returns `(root, extension)` with the dot kept on the
extension, as `os.path.splitext` does. -/
def splitext (s : String) : String × String :=
  let cs := s.toList
  match rfindDot cs with
  | none => (s, "")
  | some i =>
    if (cs.take i).any (fun c => c ≠ '.') then (String.mk (cs.take i), String.mk (cs.drop i))
    else (s, "")

/-- The local filename chosen before saving: `"{asset_name}{ext}"` when an
asset name was supplied (and truthy), else the server's filename. -/
def localFilename (asset_name : Option String) (filename : String) : String :=
  if falsy asset_name then filename
  else (asset_name.getD "") ++ (splitext filename).2

/-- The inner `for image_info in images:` loop of `generate_asset`: download
each image in turn; a falsy body (`None` or empty) hits `continue`; the
first truthy body is written to `<output_dir>/<local filename>` and its
path returned. -/
def tryImages (env : ServerEnv) (asset_name : Option String) (output_dir : String) :
    List ImageInfo → Option String × List Effect
  | [] => (none, [])
  | img :: rest =>
    let dl := env.download img.filename img.subfolder
    if dataFalsy dl then
      let r := tryImages env asset_name output_dir rest
      (r.1, Effect.downloadImage img.filename img.subfolder :: r.2)
    else
      let path := output_dir ++ "/" ++ localFilename asset_name img.filename
      (some path,
       [Effect.downloadImage img.filename img.subfolder,
        Effect.writeFile path (dl.getD 0)])

/-- The outer `for node_id, node_output in outputs.items():` loop: nodes are
tried in mapping order until some image of some node downloads truthily;
if none does, the program reports "No images found in outputs" and returns
`None`. -/
def tryNodes (env : ServerEnv) (asset_name : Option String) (output_dir : String) :
    List (String × NodeOutput) → Option String × List Effect
  | [] => (none, [])
  | (_, out) :: rest =>
    let r := tryImages env asset_name output_dir out.images
    match r.1 with
    | some p => (some p, r.2)
    | none =>
      let r' := tryNodes env asset_name output_dir rest
      (r'.1, r.2 ++ r'.2)

/-- The `while True:` monitor loop of `generate_asset`.  Each iteration
fetches history at the current elapsed second; a record is handed to the
output loops; otherwise the program sleeps 1 second and returns `None`
("Generation timed out") when the elapsed time recorded before the sleep
exceeds 120.  The structural argument `remaining` is maintained equal to
`121 - elapsed`, so `remaining = 0` holds exactly when `elapsed > 120`;
see `pollLoopAux_zero_iff` and `pollLoop_unfold`. -/
def pollLoopAux (env : ServerEnv) (asset_name : Option String) (output_dir : String) :
    Nat → Nat → Option String × List Effect
  | remaining, elapsed =>
    match env.history elapsed with
    | some hist =>
      let r := tryNodes env asset_name output_dir hist.outputs
      (r.1, Effect.getHistory elapsed :: r.2)
    | none =>
      match remaining with
      | 0 => (none, [Effect.getHistory elapsed, Effect.sleep 1])
      | r + 1 =>
        let res := pollLoopAux env asset_name output_dir r (elapsed + 1)
        (res.1, Effect.getHistory elapsed :: Effect.sleep 1 :: res.2)

/-- The poll loop entered at a given elapsed time (the invocation enters it
at `elapsed = 0`, right after queuing). -/
def pollLoop (env : ServerEnv) (asset_name : Option String) (output_dir : String)
    (elapsed : Nat) : Option String × List Effect :=
  pollLoopAux env asset_name output_dir (121 - elapsed) elapsed

/-- Fidelity of the fuel encoding: the fuel is exhausted exactly when the
source's timeout test `elapsed > 120` holds. -/
theorem pollLoopAux_zero_iff (elapsed : Nat) : 121 - elapsed = 0 ↔ elapsed > 120 := by
  omega

/-- Fidelity of the fuel encoding: `pollLoop` satisfies the recursion
equations of the source's `while True:` loop literally. -/
theorem pollLoop_unfold (env : ServerEnv) (asset_name : Option String) (output_dir : String)
    (elapsed : Nat) (hnone : env.history elapsed = none) :
    (elapsed > 120 →
      pollLoop env asset_name output_dir elapsed =
        (none, [Effect.getHistory elapsed, Effect.sleep 1]))
    ∧ (elapsed ≤ 120 →
      pollLoop env asset_name output_dir elapsed =
        ((pollLoop env asset_name output_dir (elapsed + 1)).1,
         Effect.getHistory elapsed :: Effect.sleep 1 ::
           (pollLoop env asset_name output_dir (elapsed + 1)).2)) := by
  constructor
  · intro hgt
    have h0 : 121 - elapsed = 0 := by omega
    simp [pollLoop, h0, pollLoopAux, hnone]
  · intro hle
    have hs : 121 - elapsed = (121 - (elapsed + 1)) + 1 := by omega
    rw [pollLoop, hs]
    simp [pollLoopAux, hnone, pollLoop]

/-- The `if asset_name and "66" in workflow:` mutation performed by
`generate_asset` before submission: sets the `filename_prefix` of node
"66" (the FLUX template's save node) and touches nothing otherwise. -/
def applyAssetName (asset_name : Option String) (wf : Workflow) : Workflow :=
  match asset_name with
  | none => wf
  | some nm =>
    if nm = "" then wf
    else
      match wf.lookup "66" with
      | none => wf
      | some node => updateNode wf "66" ⟨node.class_type, setKey node.inputs "filename_prefix" (JValue.s nm)⟩

/-- `generate_asset`: health check; build workflow (a `KeyError` escaping
the build is an uncaught exception, surfaced as `Except.error`); apply the
asset name to node "66" if present; queue; then poll.  The result pairs
the returned value (`Except.ok` = normal return of `Optional[str]`) with
the trace of side effects in program order. -/
def generate_asset (env : ServerEnv) (prompt : String) (asset_name : Option String)
    (output_dir : String) (model : Option String) (steps : Int) (cfg : Rat)
    (width height : Int) (seed : Int) : Except String (Option String) × List Effect :=
  if env.serverRunning = false then (Except.ok none, [Effect.healthCheck])
  else
    match create_workflow env prompt model steps cfg width height seed with
    | Except.error e => (Except.error e, [Effect.healthCheck])
    | Except.ok wf =>
      let wf := applyAssetName asset_name wf
      if falsy env.promptId then
        (Except.ok none, [Effect.healthCheck, Effect.queuePrompt wf])
      else
        let r := pollLoop env asset_name output_dir 0
        (Except.ok r.1, Effect.healthCheck :: Effect.queuePrompt wf :: r.2)

/-- A sample environment: server up, model list fetch succeeds but is
empty, no template, submission fails. -/
def envNoModels : ServerEnv :=
  ⟨true, some [], 0, none, none, fun _ => none, fun _ _ => none⟩

/-- A sample environment with two (unsorted) available models. -/
def envTwoModels : ServerEnv :=
  ⟨true, some ["zeta.ckpt", "alpha.ckpt"], 0, none, none, fun _ => none, fun _ _ => none⟩

/-- C1, counterexample.  The claim says that with an empty model list the
fallback builder fails with `NoModelAvailable` and does not build a graph
with a substitute model name.  In the code (`create_fallback_workflow`,
line 100) there is no failure path at all: with an empty model list it
builds the full graph and silently substitutes the fixed name
`"model.safetensors"` as the checkpoint of node "1". -/
theorem C1_counterexample :
    getInput (create_fallback_workflow envNoModels "pixel art tetris block" none 20 7 512 512 0)
      "1" "ckpt_name" = some (JValue.s "model.safetensors") := rfl

/-- C1, amended: if the model list is empty the fallback builder does not
fail; it builds the graph with the substitute checkpoint name
`"model.safetensors"`.  If the list is non-empty it uses its first model,
and the list produced by `get_models` is sorted (so this is the first
model in sorted order). -/
theorem C1_amended (env : ServerEnv) (prompt : String) (steps : Int) (cfg : Rat)
    (width height seed : Int) :
    getInput (create_fallback_workflow env prompt none steps cfg width height seed)
        "1" "ckpt_name"
      = some (JValue.s (match get_models env.checkpoints with
          | [] => "model.safetensors"
          | m :: _ => m))
    ∧ List.Pairwise (· ≤ ·) (get_models env.checkpoints) := by
  constructor
  · rfl
  · cases h : env.checkpoints with
    | none => simp [get_models]
    | some cps =>
      by_cases hc : cps.isEmpty
      · simp [get_models, hc]
      · simpa [get_models, hc] using List.sorted_insertionSort (· ≤ ·) cps

/-- C1, witness at a concrete environment with two unsorted models. -/
theorem C1_witness :
    getInput (create_fallback_workflow envTwoModels "a block" none 20 7 512 512 0)
        "1" "ckpt_name"
      = some (JValue.s (match get_models envTwoModels.checkpoints with
          | [] => "model.safetensors"
          | m :: _ => m))
    ∧ List.Pairwise (· ≤ ·) (get_models envTwoModels.checkpoints) :=
  C1_amended envTwoModels "a block" 20 7 512 512 0

/-- C9: with the model name supplied (non-empty) and the seed explicitly
fixed (not -1), `create_fallback_workflow` consults neither the model list
nor the clock, so building twice — under arbitrarily different ambient
environments — yields structurally identical graphs. -/
theorem C9_fallback_deterministic (env₁ env₂ : ServerEnv) (prompt m : String)
    (steps : Int) (cfg : Rat) (width height seed : Int)
    (hm : m ≠ "") (hseed : seed ≠ -1) :
    create_fallback_workflow env₁ prompt (some m) steps cfg width height seed =
      create_fallback_workflow env₂ prompt (some m) steps cfg width height seed := by
  have hf : falsy (some m) = false := by simp [falsy, hm]
  simp [create_fallback_workflow, pickModel, deriveSeed, hf, hseed]

/-- C9, witness at a concrete request and two different environments. -/
theorem C9_witness :
    create_fallback_workflow envNoModels "a tetris block" (some "sd15.ckpt") 20 7 512 512 42 =
      create_fallback_workflow envTwoModels "a tetris block" (some "sd15.ckpt") 20 7 512 512 42 :=
  C9_fallback_deterministic envNoModels envTwoModels "a tetris block" "sd15.ckpt" 20 7 512 512 42
    (by decide) (by decide)

/-- An environment whose server health check fails. -/
def envDown : ServerEnv :=
  ⟨false, none, 0, none, none, fun _ => none, fun _ _ => none⟩

/-- C6: if the health check returns false, `generate_asset` returns its
failure value (`None`, printed as the server-unavailable message)
immediately: the trace holds the health check alone — no submission, no
history poll, no sleep, no file write. -/
theorem C6_server_unavailable (env : ServerEnv) (prompt : String) (asset_name : Option String)
    (output_dir : String) (model : Option String) (steps : Int) (cfg : Rat)
    (width height seed : Int) (h : env.serverRunning = false) :
    generate_asset env prompt asset_name output_dir model steps cfg width height seed =
      (Except.ok none, [Effect.healthCheck]) := by
  simp [generate_asset, h]

/-- C6, witness at a concrete down-server environment. -/
theorem C6_witness :
    generate_asset envDown "a tetris block" none "./assets" none 20 7 512 512 (-1) =
      (Except.ok none, [Effect.healthCheck]) :=
  C6_server_unavailable envDown "a tetris block" none "./assets" none 20 7 512 512 (-1) rfl

/-- An environment whose template parses to a non-empty graph that lacks
every node id the template path mutates. -/
def envBadTemplate : ServerEnv :=
  ⟨true, none, 0, some [("1", ⟨"CheckpointLoaderSimple", []⟩)], some "job-0",
   fun _ => none, fun _ _ => none⟩

/-- C3, counterexample.  The claim says no template state can make the
build step crash.  But `create_workflow` only falls back when the template
fails to load (or parses to an empty/falsy document); a well-formed,
non-empty template missing node "47" makes
`workflow["47"]["inputs"]["text"] = prompt` raise an uncaught `KeyError`,
which escapes `generate_asset` (modelled as the `Except.error` outcome). -/
theorem C3_counterexample :
    generate_asset envBadTemplate "a tetris block" none "./assets" none 20 7 512 512 0 =
      (Except.error "KeyError: 47", [Effect.healthCheck]) := rfl

/-- C3, amended: an absent or unparseable template (load yields `None`) and
an empty parsed template both take the programmatic fallback path, and no
exception escapes there; but a non-empty parsed template lacking node "47"
raises an uncaught `KeyError` out of the build step. -/
theorem C3_template_tolerance (env : ServerEnv) (prompt : String) (model : Option String)
    (steps : Int) (cfg : Rat) (width height seed : Int) :
    (env.template = none →
      create_workflow env prompt model steps cfg width height seed =
        Except.ok (create_fallback_workflow env prompt model steps cfg width height seed))
    ∧ (env.template = some [] →
      create_workflow env prompt model steps cfg width height seed =
        Except.ok (create_fallback_workflow env prompt model steps cfg width height seed))
    ∧ (∀ wf : Workflow, env.template = some wf → wf ≠ [] → wf.lookup "47" = none →
      create_workflow env prompt model steps cfg width height seed =
        Except.error "KeyError: 47") := by
  refine ⟨?_, ?_, ?_⟩
  · intro h
    simp [create_workflow, load_workflow_template, h]
  · intro h
    simp [create_workflow, load_workflow_template, h]
  · intro wf h hne h47
    have hemp : wf.isEmpty = false := by
      cases wf with
      | nil => exact absurd rfl hne
      | cons a l => rfl
    simp only [create_workflow, load_workflow_template, h, hemp, Bool.false_eq_true,
      if_false, setNodeInput, h47]
    rfl

/-- C3, witness: the crash branch at `envBadTemplate` and the fallback
branch at `envNoModels`, both concrete. -/
theorem C3_witness :
    create_workflow envBadTemplate "p" none 20 7 512 512 0 = Except.error "KeyError: 47"
    ∧ create_workflow envNoModels "p" none 20 7 512 512 0 =
        Except.ok (create_fallback_workflow envNoModels "p" none 20 7 512 512 0) :=
  ⟨(C3_template_tolerance envBadTemplate "p" none 20 7 512 512 0).2.2
      [("1", ⟨"CheckpointLoaderSimple", []⟩)] rfl (by simp) rfl,
   (C3_template_tolerance envNoModels "p" none 20 7 512 512 0).1 rfl⟩

/-- The first image reference of the counterexample history. -/
def imgA : ImageInfo := ⟨"TetrisAsset_00001_.png", ""⟩

/-- The second image reference of the counterexample history. -/
def imgB : ImageInfo := ⟨"TetrisAsset_00002_.png", ""⟩

/-- An environment whose history is available at once with one output node
holding two images; downloading the first fails, the second succeeds with
51200 bytes. -/
def envTwoImages : ServerEnv :=
  ⟨true, none, 0, none, some "job-1",
   fun _ => some ⟨[("7", ⟨[imgA, imgB]⟩)]⟩,
   fun fn _ => if fn = "TetrisAsset_00001_.png" then none else some 51200⟩

/-- C2, counterexample.  The claim says a failed download of the first
image terminates the invocation as `Failed(DownloadFailed)` with no
further download attempt and no file written.  In the code the failure
hits `continue`: the next image is downloaded, saved and returned — the
full trace below shows the second download attempt, the file write, and
the successful result. -/
theorem C2_counterexample :
    generate_asset envTwoImages "a wall tile" (some "wall_tile") "./assets" (some "m.ckpt")
        20 7 512 512 5 =
      (Except.ok (some "./assets/wall_tile.png"),
       [Effect.healthCheck,
        Effect.queuePrompt
          (create_fallback_workflow envTwoImages "a wall tile" (some "m.ckpt") 20 7 512 512 5),
        Effect.getHistory 0,
        Effect.downloadImage "TetrisAsset_00001_.png" "",
        Effect.downloadImage "TetrisAsset_00002_.png" "",
        Effect.writeFile "./assets/wall_tile.png" 51200]) := rfl

/-- When every download in a list is falsy, the image loop attempts each
one in order and produces no result and no write. -/
theorem tryImages_all_fail (env : ServerEnv) (asset_name : Option String)
    (output_dir : String) (imgs : List ImageInfo)
    (h : ∀ i ∈ imgs, dataFalsy (env.download i.filename i.subfolder) = true) :
    tryImages env asset_name output_dir imgs =
      (none, imgs.map fun i => Effect.downloadImage i.filename i.subfolder) := by
  induction imgs with
  | nil => rfl
  | cons img rest ih =>
    have h1 : dataFalsy (env.download img.filename img.subfolder) = true := h img (by simp)
    have h2 : ∀ i ∈ rest, dataFalsy (env.download i.filename i.subfolder) = true :=
      fun i hi => h i (by simp [hi])
    simp [tryImages, h1, ih h2]

/-- C2, amended: a falsy download does not terminate the retrieval — the
loop continues with the remaining images (first conjunct); and when every
download of every node is falsy the invocation's retrieval yields no path
and writes no file (second conjunct). -/
theorem C2_download_continue (env : ServerEnv) (asset_name : Option String)
    (output_dir : String) :
    (∀ (img : ImageInfo) (rest : List ImageInfo),
      dataFalsy (env.download img.filename img.subfolder) = true →
      tryImages env asset_name output_dir (img :: rest) =
        ((tryImages env asset_name output_dir rest).1,
         Effect.downloadImage img.filename img.subfolder ::
           (tryImages env asset_name output_dir rest).2))
    ∧ (∀ nodes : List (String × NodeOutput),
      (∀ p ∈ nodes, ∀ i ∈ p.2.images,
        dataFalsy (env.download i.filename i.subfolder) = true) →
      (tryNodes env asset_name output_dir nodes).1 = none
      ∧ ∀ pth b, Effect.writeFile pth b ∉ (tryNodes env asset_name output_dir nodes).2) := by
  constructor
  · intro img rest h
    simp [tryImages, h]
  · intro nodes hall
    induction nodes with
    | nil => simp [tryNodes]
    | cons nd rest ih =>
      obtain ⟨nid, out⟩ := nd
      have hfail := tryImages_all_fail env asset_name output_dir out.images
        (fun i hi => hall (nid, out) (by simp) i hi)
      have hrest := ih (fun p hp i hi => hall p (by simp [hp]) i hi)
      simp [tryNodes, hfail, hrest.1, hrest.2]

/-- C2, witness: the continue step at `envTwoImages`, and the all-fail
outcome at `envNoModels`, both concrete. -/
theorem C2_witness :
    (tryImages envTwoImages (some "wall_tile") "./assets" [imgA, imgB] =
      ((tryImages envTwoImages (some "wall_tile") "./assets" [imgB]).1,
       Effect.downloadImage "TetrisAsset_00001_.png" "" ::
         (tryImages envTwoImages (some "wall_tile") "./assets" [imgB]).2))
    ∧ (tryNodes envNoModels (some "t") "./assets" [("7", ⟨[imgA]⟩)]).1 = none :=
  ⟨(C2_download_continue envTwoImages (some "wall_tile") "./assets").1 imgA [imgB] rfl,
   ((C2_download_continue envNoModels (some "t") "./assets").2 [("7", ⟨[imgA]⟩)]
      (by decide)).1⟩

/-- Recognizes a history poll in a trace. -/
def isPoll : Effect → Bool
  | Effect.getHistory _ => true
  | _ => false

/-- The number of history polls recorded in a trace. -/
def countPolls (es : List Effect) : Nat := (es.filter isPoll).length

/-- When a history record with only empty image lists arrives, the output
loops produce no result and no effect at all (no download, no write). -/
theorem tryNodes_all_empty (env : ServerEnv) (asset_name : Option String)
    (output_dir : String) (nodes : List (String × NodeOutput))
    (h : ∀ p ∈ nodes, p.2.images = []) :
    tryNodes env asset_name output_dir nodes = (none, []) := by
  induction nodes with
  | nil => rfl
  | cons nd rest ih =>
    obtain ⟨nid, out⟩ := nd
    have h1 : out.images = [] := h (nid, out) (by simp)
    have h2 := ih (fun p hp => h p (by simp [hp]))
    simp [tryNodes, h1, h2, tryImages]

/-- C8: if the history record observed on the first poll has an empty
image list in every output node, `generate_asset` returns its failure
value (`None`, the "No images found in outputs" branch) and the trace
carries no file write. -/
theorem C8_no_output (env : ServerEnv) (prompt : String) (asset_name : Option String)
    (output_dir : String) (model : Option String) (steps : Int) (cfg : Rat)
    (width height seed : Int) (hist : HistoryRecord)
    (hup : env.serverRunning = true) (htmpl : env.template = none)
    (hpid : falsy env.promptId = false)
    (hh : env.history 0 = some hist)
    (hempty : ∀ p ∈ hist.outputs, p.2.images = []) :
    (generate_asset env prompt asset_name output_dir model steps cfg width height seed).1 =
      Except.ok none
    ∧ ∀ pth b, Effect.writeFile pth b ∉
        (generate_asset env prompt asset_name output_dir model steps cfg width height seed).2 := by
  have hNodes := tryNodes_all_empty env asset_name output_dir hist.outputs hempty
  simp [generate_asset, hup, create_workflow, load_workflow_template, htmpl, hpid,
    pollLoop, pollLoopAux, hh, hNodes]

/-- An environment whose history is available at once but whose single
output node has an empty image list. -/
def envEmptyImages : ServerEnv :=
  ⟨true, none, 0, none, some "job-2", fun _ => some ⟨[("9", ⟨[]⟩)]⟩, fun _ _ => none⟩

/-- C8, witness at `envEmptyImages`. -/
theorem C8_witness :
    (generate_asset envEmptyImages "a block" none "./assets" none 20 7 512 512 0).1 =
      Except.ok none
    ∧ ∀ pth b, Effect.writeFile pth b ∉
        (generate_asset envEmptyImages "a block" none "./assets" none 20 7 512 512 0).2 :=
  C8_no_output envEmptyImages "a block" none "./assets" none 20 7 512 512 0
    ⟨[("9", ⟨[]⟩)]⟩ rfl rfl rfl rfl (by decide)

/-- When no poll ever sees a history record, the loop runs its full fuel:
no result, one poll per iteration plus the final one, every sleep is
exactly 1 second, and nothing is written. -/
theorem pollLoopAux_no_history (env : ServerEnv) (asset_name : Option String)
    (output_dir : String) (hnone : ∀ n, env.history n = none) :
    ∀ remaining elapsed,
      (pollLoopAux env asset_name output_dir remaining elapsed).1 = none
      ∧ countPolls (pollLoopAux env asset_name output_dir remaining elapsed).2 = remaining + 1
      ∧ (∀ pth b, Effect.writeFile pth b ∉
          (pollLoopAux env asset_name output_dir remaining elapsed).2)
      ∧ (∀ s, Effect.sleep s ∈ (pollLoopAux env asset_name output_dir remaining elapsed).2 →
          s = 1) := by
  intro remaining
  induction remaining with
  | zero =>
    intro elapsed
    simp [pollLoopAux, hnone elapsed, countPolls, isPoll]
  | succ r ih =>
    intro elapsed
    have h := ih (elapsed + 1)
    refine ⟨?_, ?_, ?_, ?_⟩
    · simp [pollLoopAux, hnone elapsed, h.1]
    · simp [pollLoopAux, hnone elapsed, countPolls, isPoll] at h ⊢
      omega
    · intro pth b
      simp [pollLoopAux, hnone elapsed]
      exact fun hmem => h.2.2.1 pth b hmem
    · intro s
      simp [pollLoopAux, hnone elapsed]
      intro hmem
      cases hmem with
      | inl h1 => exact h1
      | inr h2 => exact h.2.2.2 s h2

/-- C7: when no poll ever returns a history record, the invocation
terminates (this function is total) with the timeout failure after exactly
122 polls — elapsed seconds 0 through 121, the first value strictly above
the 120-second ceiling — at a constant cadence of 1-second sleeps, and
writes no file. -/
theorem C7_timeout (env : ServerEnv) (prompt : String) (asset_name : Option String)
    (output_dir : String) (model : Option String) (steps : Int) (cfg : Rat)
    (width height seed : Int)
    (hup : env.serverRunning = true) (htmpl : env.template = none)
    (hpid : falsy env.promptId = false)
    (hnone : ∀ n, env.history n = none) :
    (generate_asset env prompt asset_name output_dir model steps cfg width height seed).1 =
      Except.ok none
    ∧ countPolls (generate_asset env prompt asset_name output_dir model steps cfg width height seed).2
        = 122
    ∧ (∀ pth b, Effect.writeFile pth b ∉
        (generate_asset env prompt asset_name output_dir model steps cfg width height seed).2)
    ∧ (∀ s, Effect.sleep s ∈
        (generate_asset env prompt asset_name output_dir model steps cfg width height seed).2 →
        s = 1) := by
  have h := pollLoopAux_no_history env asset_name output_dir hnone 121 0
  refine ⟨?_, ?_, ?_, ?_⟩
  · simp [generate_asset, hup, create_workflow, load_workflow_template, htmpl, hpid,
      pollLoop, h.1]
  · simp [generate_asset, hup, create_workflow, load_workflow_template, htmpl, hpid,
      pollLoop, countPolls, isPoll]
    have := h.2.1
    simp [countPolls] at this
    omega
  · intro pth b
    simp [generate_asset, hup, create_workflow, load_workflow_template, htmpl, hpid, pollLoop]
    exact fun hmem => h.2.2.1 pth b hmem
  · intro s
    simp [generate_asset, hup, create_workflow, load_workflow_template, htmpl, hpid, pollLoop]
    exact fun hmem => h.2.2.2 s hmem

/-- An environment that accepts the submission but never reports history. -/
def envNeverDone : ServerEnv :=
  ⟨true, none, 0, none, some "job-3", fun _ => none, fun _ _ => none⟩

/-- C7, witness at `envNeverDone`. -/
theorem C7_witness :
    (generate_asset envNeverDone "a block" none "./assets" none 20 7 512 512 0).1 =
      Except.ok none
    ∧ countPolls (generate_asset envNeverDone "a block" none "./assets" none 20 7 512 512 0).2
        = 122
    ∧ (∀ pth b, Effect.writeFile pth b ∉
        (generate_asset envNeverDone "a block" none "./assets" none 20 7 512 512 0).2)
    ∧ (∀ s, Effect.sleep s ∈
        (generate_asset envNeverDone "a block" none "./assets" none 20 7 512 512 0).2 → s = 1) :=
  C7_timeout envNeverDone "a block" none "./assets" none 20 7 512 512 0
    rfl rfl rfl (fun _ => rfl)

/-- Recognizes the local image-file write in a trace. -/
def isWrite : Effect → Bool
  | Effect.writeFile _ _ => true
  | _ => false

/-- Recognizes any local filesystem mutation in a trace. -/
def isFsMutation : Effect → Bool
  | Effect.writeFile _ _ => true
  | Effect.mkdirOutput _ => true
  | _ => false

/-- The number of local file writes recorded in a trace. -/
def countWrites (es : List Effect) : Nat := (es.filter isWrite).length

theorem countWrites_append (a b : List Effect) :
    countWrites (a ++ b) = countWrites a + countWrites b := by
  simp [countWrites, List.filter_append]

theorem countWrites_cons (e : Effect) (es : List Effect) :
    countWrites (e :: es) = (if isWrite e then 1 else 0) + countWrites es := by
  simp only [countWrites, List.filter_cons]
  cases hw : isWrite e <;> simp [Nat.add_comm]

/-- The image loop writes nothing when it fails, and at most one file
ever; it never creates a directory. -/
theorem tryImages_writes (env : ServerEnv) (asset_name : Option String) (output_dir : String)
    (imgs : List ImageInfo) :
    ((tryImages env asset_name output_dir imgs).1 = none →
      countWrites (tryImages env asset_name output_dir imgs).2 = 0)
    ∧ countWrites (tryImages env asset_name output_dir imgs).2 ≤ 1
    ∧ ∀ d, Effect.mkdirOutput d ∉ (tryImages env asset_name output_dir imgs).2 := by
  induction imgs with
  | nil => exact ⟨fun _ => rfl, by simp [tryImages, countWrites], by simp [tryImages]⟩
  | cons img rest ih =>
    cases h : dataFalsy (env.download img.filename img.subfolder) with
    | true =>
      have e1 : tryImages env asset_name output_dir (img :: rest) =
          ((tryImages env asset_name output_dir rest).1,
           Effect.downloadImage img.filename img.subfolder ::
             (tryImages env asset_name output_dir rest).2) := by
        simp [tryImages, h]
      rw [e1]
      refine ⟨?_, ?_, ?_⟩
      · intro hres
        rw [countWrites_cons]
        have := ih.1 hres
        simp [isWrite, this]
      · rw [countWrites_cons]
        have := ih.2.1
        simp [isWrite]
        omega
      · intro d
        simp only [List.mem_cons]
        rintro (hd | hd)
        · exact Effect.noConfusion hd
        · exact ih.2.2 d hd
    | false =>
      have e1 : tryImages env asset_name output_dir (img :: rest) =
          (some (output_dir ++ "/" ++ localFilename asset_name img.filename),
           [Effect.downloadImage img.filename img.subfolder,
            Effect.writeFile (output_dir ++ "/" ++ localFilename asset_name img.filename)
              ((env.download img.filename img.subfolder).getD 0)]) := by
        simp [tryImages, h]
      rw [e1]
      refine ⟨?_, ?_, ?_⟩
      · intro hres
        exact Option.noConfusion hres
      · simp [countWrites, isWrite]
      · intro d
        simp [isWrite]

/-- Same frame facts for the node loop. -/
theorem tryNodes_writes (env : ServerEnv) (asset_name : Option String) (output_dir : String)
    (nodes : List (String × NodeOutput)) :
    ((tryNodes env asset_name output_dir nodes).1 = none →
      countWrites (tryNodes env asset_name output_dir nodes).2 = 0)
    ∧ countWrites (tryNodes env asset_name output_dir nodes).2 ≤ 1
    ∧ ∀ d, Effect.mkdirOutput d ∉ (tryNodes env asset_name output_dir nodes).2 := by
  induction nodes with
  | nil => exact ⟨fun _ => rfl, by simp [tryNodes, countWrites], by simp [tryNodes]⟩
  | cons nd rest ih =>
    obtain ⟨nid, out⟩ := nd
    have hI := tryImages_writes env asset_name output_dir out.images
    cases h1 : (tryImages env asset_name output_dir out.images).1 with
    | some p =>
      have e1 : tryNodes env asset_name output_dir ((nid, out) :: rest) =
          (some p, (tryImages env asset_name output_dir out.images).2) := by
        simp [tryNodes, h1]
      rw [e1]
      exact ⟨fun hres => Option.noConfusion hres, hI.2.1, hI.2.2⟩
    | none =>
      have hz : countWrites (tryImages env asset_name output_dir out.images).2 = 0 := hI.1 h1
      have e1 : tryNodes env asset_name output_dir ((nid, out) :: rest) =
          ((tryNodes env asset_name output_dir rest).1,
           (tryImages env asset_name output_dir out.images).2 ++
             (tryNodes env asset_name output_dir rest).2) := by
        simp [tryNodes, h1]
      rw [e1]
      refine ⟨?_, ?_, ?_⟩
      · intro hres
        rw [countWrites_append, hz]
        simpa using ih.1 hres
      · rw [countWrites_append, hz]
        simpa using ih.2.1
      · intro d
        simp only [List.mem_append]
        rintro (hd | hd)
        · exact hI.2.2 d hd
        · exact ih.2.2 d hd

/-- Same frame facts for the poll loop. -/
theorem pollLoopAux_writes (env : ServerEnv) (asset_name : Option String)
    (output_dir : String) :
    ∀ remaining elapsed,
      ((pollLoopAux env asset_name output_dir remaining elapsed).1 = none →
        countWrites (pollLoopAux env asset_name output_dir remaining elapsed).2 = 0)
      ∧ countWrites (pollLoopAux env asset_name output_dir remaining elapsed).2 ≤ 1
      ∧ ∀ d, Effect.mkdirOutput d ∉
          (pollLoopAux env asset_name output_dir remaining elapsed).2 := by
  have hsome : ∀ remaining elapsed (hist : HistoryRecord),
      env.history elapsed = some hist →
      pollLoopAux env asset_name output_dir remaining elapsed =
        ((tryNodes env asset_name output_dir hist.outputs).1,
         Effect.getHistory elapsed :: (tryNodes env asset_name output_dir hist.outputs).2) := by
    intro remaining elapsed hist hh
    cases remaining <;> simp [pollLoopAux, hh]
  intro remaining
  induction remaining with
  | zero =>
    intro elapsed
    cases hh : env.history elapsed with
    | some hist =>
      have hN := tryNodes_writes env asset_name output_dir hist.outputs
      rw [hsome 0 elapsed hist hh]
      refine ⟨?_, ?_, ?_⟩
      · intro hres
        rw [countWrites_cons]
        simpa [isWrite] using hN.1 hres
      · rw [countWrites_cons]
        have := hN.2.1
        simp [isWrite]
        omega
      · intro d
        simp only [List.mem_cons]
        rintro (hd | hd)
        · exact Effect.noConfusion hd
        · exact hN.2.2 d hd
    | none =>
      have e1 : pollLoopAux env asset_name output_dir 0 elapsed =
          (none, [Effect.getHistory elapsed, Effect.sleep 1]) := by
        simp [pollLoopAux, hh]
      rw [e1]
      exact ⟨fun _ => rfl, by simp [countWrites, isWrite], by simp⟩
  | succ r ih =>
    intro elapsed
    have h := ih (elapsed + 1)
    cases hh : env.history elapsed with
    | some hist =>
      have hN := tryNodes_writes env asset_name output_dir hist.outputs
      rw [hsome (r + 1) elapsed hist hh]
      refine ⟨?_, ?_, ?_⟩
      · intro hres
        rw [countWrites_cons]
        simpa [isWrite] using hN.1 hres
      · rw [countWrites_cons]
        have := hN.2.1
        simp [isWrite]
        omega
      · intro d
        simp only [List.mem_cons]
        rintro (hd | hd)
        · exact Effect.noConfusion hd
        · exact hN.2.2 d hd
    | none =>
      have e1 : pollLoopAux env asset_name output_dir (r + 1) elapsed =
          ((pollLoopAux env asset_name output_dir r (elapsed + 1)).1,
           Effect.getHistory elapsed :: Effect.sleep 1 ::
             (pollLoopAux env asset_name output_dir r (elapsed + 1)).2) := by
        simp [pollLoopAux, hh]
      rw [e1]
      refine ⟨?_, ?_, ?_⟩
      · intro hres
        rw [countWrites_cons, countWrites_cons]
        simpa [isWrite] using h.1 hres
      · rw [countWrites_cons, countWrites_cons]
        have := h.2.1
        simp [isWrite]
        omega
      · intro d
        simp only [List.mem_cons]
        rintro (hd | hd | hd)
        · exact Effect.noConfusion hd
        · exact Effect.noConfusion hd
        · exact h.2.2 d hd

/-- Frame facts for a whole invocation: at most one local file write, and
never a directory creation. -/
theorem generate_asset_writes (env : ServerEnv) (prompt : String) (asset_name : Option String)
    (output_dir : String) (model : Option String) (steps : Int) (cfg : Rat)
    (width height seed : Int) :
    countWrites (generate_asset env prompt asset_name output_dir model steps cfg
        width height seed).2 ≤ 1
    ∧ ∀ d, Effect.mkdirOutput d ∉
        (generate_asset env prompt asset_name output_dir model steps cfg width height seed).2 := by
  by_cases hup : env.serverRunning = false
  · refine ⟨?_, ?_⟩ <;> simp [generate_asset, hup, countWrites, isWrite]
  · cases hcw : create_workflow env prompt model steps cfg width height seed with
    | error e =>
      refine ⟨?_, ?_⟩ <;> simp [generate_asset, hup, hcw, countWrites, isWrite]
    | ok wf =>
      cases hfb : falsy env.promptId with
      | true =>
        refine ⟨?_, ?_⟩ <;> simp [generate_asset, hup, hcw, hfb, countWrites, isWrite]
      | false =>
        have h := pollLoopAux_writes env asset_name output_dir 121 0
        have e1 : generate_asset env prompt asset_name output_dir model steps cfg
            width height seed =
            (Except.ok (pollLoopAux env asset_name output_dir 121 0).1,
             Effect.healthCheck ::
               Effect.queuePrompt (applyAssetName asset_name wf) ::
                 (pollLoopAux env asset_name output_dir 121 0).2) := by
          simp [generate_asset, hup, hcw, hfb, pollLoop]
        rw [e1]
        refine ⟨?_, ?_⟩
        · rw [countWrites_cons, countWrites_cons]
          have := h.2.1
          simp [isWrite]
          omega
        · intro d
          simp only [List.mem_cons]
          rintro (hd | hd | hd)
          · exact Effect.noConfusion hd
          · exact Effect.noConfusion hd
          · exact h.2.2 d hd

/-- C5, counterexample.  The claim says constructing or using the client
mutates no local filesystem state beyond the one image file written on
success.  But `__init__` itself runs
`self.output_dir.mkdir(exist_ok=True)`: a filesystem mutation (it creates
the output directory when absent) that is not the image-file write. -/
theorem C5_counterexample :
    Effect.mkdirOutput "./assets" ∈ (generator_init "127.0.0.1" 8188 "client-1" "./assets").2
    ∧ isFsMutation (Effect.mkdirOutput "./assets") = true
    ∧ isWrite (Effect.mkdirOutput "./assets") = false := by
  refine ⟨?_, rfl, rfl⟩
  simp [generator_init]

/-- C5, amended: the client holds only the configuration fields set at
construction, and its filesystem footprint is exactly: one directory
creation (`mkdir(exist_ok=True)` on the output directory) at construction
time, and at most one image-file write per invocation — an invocation
never creates a directory. -/
theorem C5_frame (host : String) (port : Nat) (client_id output_dir : String)
    (env : ServerEnv) (prompt : String) (asset_name : Option String)
    (model : Option String) (steps : Int) (cfg : Rat) (width height seed : Int) :
    (generator_init host port client_id output_dir).2 = [Effect.mkdirOutput output_dir]
    ∧ (∀ d, Effect.mkdirOutput d ∉
        (generate_asset env prompt asset_name output_dir model steps cfg width height seed).2)
    ∧ countWrites (generate_asset env prompt asset_name output_dir model steps cfg
        width height seed).2 ≤ 1 :=
  ⟨rfl,
   (generate_asset_writes env prompt asset_name output_dir model steps cfg width height seed).2,
   (generate_asset_writes env prompt asset_name output_dir model steps cfg width height seed).1⟩

/-- C5, witness at a concrete configuration and environment. -/
theorem C5_witness :
    (generator_init "127.0.0.1" 8188 "client-1" "./assets").2 =
        [Effect.mkdirOutput "./assets"]
    ∧ (∀ d, Effect.mkdirOutput d ∉
        (generate_asset envTwoImages "a block" none "./assets" none 20 7 512 512 0).2)
    ∧ countWrites (generate_asset envTwoImages "a block" none "./assets" none 20 7 512 512 0).2
        ≤ 1 :=
  C5_frame "127.0.0.1" 8188 "client-1" "./assets" envTwoImages "a block" none none 20 7 512 512 0

/-- The complement of `isWrite`: every effect other than the local image
write (used to compare traces up to the locally chosen filename). -/
def nonWrite : Effect → Bool
  | Effect.writeFile _ _ => false
  | _ => true

/-- The workflow submitted to the server: the argument of the first
`queuePrompt` effect of a trace. -/
def submitted (es : List Effect) : Option Workflow :=
  es.findSome? fun e =>
    match e with
    | Effect.queuePrompt wf => some wf
    | _ => none

/-- The fallback graph has node ids "1"–"7" only, so it has no node "66". -/
theorem fallback_lookup_66 (env : ServerEnv) (prompt : String) (model : Option String)
    (steps : Int) (cfg : Rat) (width height seed : Int) :
    (create_fallback_workflow env prompt model steps cfg width height seed).lookup "66" =
      none := rfl

/-- The pre-submission mutation leaves any workflow without a node "66"
untouched, whatever the asset name. -/
theorem applyAssetName_no66 (asset_name : Option String) (wf : Workflow)
    (h : wf.lookup "66" = none) : applyAssetName asset_name wf = wf := by
  cases asset_name with
  | none => rfl
  | some nm =>
    by_cases hnm : nm = "" <;> simp [applyAssetName, hnm, h]

/-- The image loop's success/failure and its non-write effects do not
depend on the asset name (only the written path does). -/
theorem tryImages_asset_independent (env : ServerEnv) (nm nm' : Option String)
    (output_dir : String) (imgs : List ImageInfo) :
    (tryImages env nm output_dir imgs).1.isSome =
      (tryImages env nm' output_dir imgs).1.isSome
    ∧ (tryImages env nm output_dir imgs).2.filter nonWrite =
      (tryImages env nm' output_dir imgs).2.filter nonWrite := by
  induction imgs with
  | nil => exact ⟨rfl, rfl⟩
  | cons img rest ih =>
    cases h : dataFalsy (env.download img.filename img.subfolder) with
    | true => simp [tryImages, h, nonWrite, ih.1, ih.2]
    | false => simp [tryImages, h, nonWrite]

/-- Same independence for the node loop. -/
theorem tryNodes_asset_independent (env : ServerEnv) (nm nm' : Option String)
    (output_dir : String) (nodes : List (String × NodeOutput)) :
    (tryNodes env nm output_dir nodes).1.isSome =
      (tryNodes env nm' output_dir nodes).1.isSome
    ∧ (tryNodes env nm output_dir nodes).2.filter nonWrite =
      (tryNodes env nm' output_dir nodes).2.filter nonWrite := by
  induction nodes with
  | nil => exact ⟨rfl, rfl⟩
  | cons nd rest ih =>
    obtain ⟨nid, out⟩ := nd
    have hI := tryImages_asset_independent env nm nm' output_dir out.images
    cases h1 : (tryImages env nm output_dir out.images).1 with
    | some p =>
      cases h2 : (tryImages env nm' output_dir out.images).1 with
      | some q => simp [tryNodes, h1, h2, hI.2]
      | none =>
        exfalso
        have := hI.1
        rw [h1, h2] at this
        simp at this
    | none =>
      cases h2 : (tryImages env nm' output_dir out.images).1 with
      | some q =>
        exfalso
        have := hI.1
        rw [h1, h2] at this
        simp at this
      | none =>
        simp [tryNodes, h1, h2, List.filter_append, hI.2, ih.1, ih.2]

/-- Same independence for the poll loop. -/
theorem pollLoopAux_asset_independent (env : ServerEnv) (nm nm' : Option String)
    (output_dir : String) :
    ∀ remaining elapsed,
      (pollLoopAux env nm output_dir remaining elapsed).1.isSome =
        (pollLoopAux env nm' output_dir remaining elapsed).1.isSome
      ∧ (pollLoopAux env nm output_dir remaining elapsed).2.filter nonWrite =
        (pollLoopAux env nm' output_dir remaining elapsed).2.filter nonWrite := by
  intro remaining
  induction remaining with
  | zero =>
    intro elapsed
    cases hh : env.history elapsed with
    | some hist =>
      have hN := tryNodes_asset_independent env nm nm' output_dir hist.outputs
      simp [pollLoopAux, hh, nonWrite, hN.1, hN.2]
    | none => simp [pollLoopAux, hh]
  | succ r ih =>
    intro elapsed
    have h := ih (elapsed + 1)
    cases hh : env.history elapsed with
    | some hist =>
      have hN := tryNodes_asset_independent env nm nm' output_dir hist.outputs
      simp [pollLoopAux, hh, nonWrite, hN.1, hN.2]
    | none =>
      simp [pollLoopAux, hh, nonWrite, h.1, h.2]

/-- C10: (i) the pre-submission asset-name mutation changes a workflow only
when that workflow has a node "66"; (ii) on the fallback path the graph
submitted to the server is exactly the fallback graph, independent of the
asset name; (iii) its save node "7" keeps `filename_prefix` equal to
`"TetrisAsset"`; (iv) the whole invocation's behaviour apart from the
local file write — every network call, poll, sleep and download — is
independent of the asset name, which therefore affects only the locally
written filename. -/
theorem C10_asset_name_frame (env : ServerEnv) (prompt : String) (asset_name : Option String)
    (output_dir : String) (model : Option String) (steps : Int) (cfg : Rat)
    (width height seed : Int)
    (hup : env.serverRunning = true) (htmpl : env.template = none) :
    (∀ wf : Workflow, applyAssetName asset_name wf ≠ wf → (wf.lookup "66").isSome)
    ∧ submitted (generate_asset env prompt asset_name output_dir model steps cfg
        width height seed).2 =
      some (create_fallback_workflow env prompt model steps cfg width height seed)
    ∧ getInput (create_fallback_workflow env prompt model steps cfg width height seed)
        "7" "filename_prefix" = some (JValue.s "TetrisAsset")
    ∧ (generate_asset env prompt asset_name output_dir model steps cfg
        width height seed).2.filter nonWrite =
      (generate_asset env prompt none output_dir model steps cfg
        width height seed).2.filter nonWrite := by
  have hcw : create_workflow env prompt model steps cfg width height seed =
      Except.ok (create_fallback_workflow env prompt model steps cfg width height seed) := by
    simp [create_workflow, load_workflow_template, htmpl]
  have happly : ∀ nm : Option String,
      applyAssetName nm (create_fallback_workflow env prompt model steps cfg width height seed)
        = create_fallback_workflow env prompt model steps cfg width height seed :=
    fun nm => applyAssetName_no66 nm _
      (fallback_lookup_66 env prompt model steps cfg width height seed)
  refine ⟨?_, ?_, rfl, ?_⟩
  · intro wf hne
    cases asset_name with
    | none => exact absurd rfl hne
    | some nm =>
      by_cases hnm : nm = ""
      · simp [applyAssetName, hnm] at hne
      · cases h66 : wf.lookup "66" with
        | none => exact absurd (applyAssetName_no66 (some nm) wf h66) hne
        | some node => simp
  · cases hfb : falsy env.promptId with
    | true =>
      simp [generate_asset, hup, hcw, hfb, happly, submitted]
    | false =>
      simp [generate_asset, hup, hcw, hfb, happly, submitted, pollLoop]
  · cases hfb : falsy env.promptId with
    | true =>
      simp [generate_asset, hup, hcw, hfb, happly, nonWrite]
    | false =>
      have h := pollLoopAux_asset_independent env asset_name none output_dir 121 0
      simp [generate_asset, hup, hcw, hfb, happly, pollLoop, nonWrite, h.2]

/-- C10, witness at a concrete environment and asset name. -/
theorem C10_witness :
    (∀ wf : Workflow, applyAssetName (some "wall_tile") wf ≠ wf → (wf.lookup "66").isSome)
    ∧ submitted (generate_asset envTwoImages "a wall tile" (some "wall_tile") "./assets"
        (some "m.ckpt") 20 7 512 512 5).2 =
      some (create_fallback_workflow envTwoImages "a wall tile" (some "m.ckpt") 20 7 512 512 5)
    ∧ getInput (create_fallback_workflow envTwoImages "a wall tile" (some "m.ckpt")
        20 7 512 512 5) "7" "filename_prefix" = some (JValue.s "TetrisAsset")
    ∧ (generate_asset envTwoImages "a wall tile" (some "wall_tile") "./assets"
        (some "m.ckpt") 20 7 512 512 5).2.filter nonWrite =
      (generate_asset envTwoImages "a wall tile" none "./assets"
        (some "m.ckpt") 20 7 512 512 5).2.filter nonWrite :=
  C10_asset_name_frame envTwoImages "a wall tile" (some "wall_tile") "./assets"
    (some "m.ckpt") 20 7 512 512 5 rfl rfl

/-- Python `str.split(sep)` for a single-character separator: splitting the
empty string gives `[""]`, and separators delimit possibly empty groups. -/
def pySplit (sep : Char) : List Char → List (List Char)
  | [] => [[]]
  | c :: cs =>
    let r := pySplit sep cs
    if c = sep then [] :: r
    else
      match r with
      | [] => [[c]]
      | g :: gs => (c :: g) :: gs

/-- Digit run accepted by Python `int()` after the sign: decimal digits
with single underscores allowed between digits (accumulating the value). -/
def pyDigitsAux : Nat → List Char → Option Nat
  | acc, [] => some acc
  | acc, c :: cs =>
    if c.isDigit then pyDigitsAux (10 * acc + (c.toNat - 48)) cs
    else if c = '_' then
      match cs with
      | [] => none
      | d :: ds => if d.isDigit then pyDigitsAux acc (d :: ds) else none
    else none

/-- See `pyDigitsAux`; the run must start with a digit. -/
def pyDigits : List Char → Option Nat
  | [] => none
  | c :: cs => if c.isDigit then pyDigitsAux 0 (c :: cs) else none

/-- Leading/trailing whitespace stripping performed by Python `int()`. -/
def stripWs (cs : List Char) : List Char :=
  (((cs.dropWhile Char.isWhitespace).reverse).dropWhile Char.isWhitespace).reverse

/-- Python `int(s)` for a decimal string: optional surrounding whitespace,
optional sign, then a digit run; anything else raises `ValueError`
(modelled as `none`). -/
def pyInt (s : List Char) : Option Int :=
  match stripWs s with
  | '+' :: rest => (pyDigits rest).map Int.ofNat
  | '-' :: rest => (pyDigits rest).map fun n => -(n : Int)
  | rest => (pyDigits rest).map Int.ofNat

/-- The CLI size parsing `width, height = map(int, args.size.split('x'))`
inside `try:`: any `ValueError` from `int` or unpacking arity other than
two lands in the `except:` branch (modelled as `none`). -/
def parse_size (s : String) : Option (Int × Int) :=
  match (pySplit 'x' s.toList).map pyInt with
  | [some w, some h] => some (w, h)
  | _ => none

/-- The CLI argument record built by `argparse` (defaults as in the
source). -/
structure Args where
  prompt : String
  name : Option String
  model : Option String
  steps : Int
  cfg : Rat
  size : String
  seed : Int
  output : String
  host : String
  port : Nat
  deriving Repr

/-- `main`: parse the size — on failure print the format message and
`return`, which ends the process with exit code 0 and performs no network
call and no directory creation; otherwise construct the generator (this
runs the constructor's `mkdir`) and invoke `generate_asset`, exiting 1 via
`sys.exit(1)` when it returns `None` (an uncaught exception from the build
step likewise terminates the interpreter with a non-zero code). -/
def main (env : ServerEnv) (client_id : String) (args : Args) : Nat × List Effect :=
  match parse_size args.size with
  | none => (0, [])
  | some (w, h) =>
    let g := generator_init args.host args.port client_id args.output
    let r := generate_asset env args.prompt args.name g.1.output_dir args.model args.steps
      args.cfg w h args.seed
    match r.1 with
    | Except.ok (some _) => (0, g.2 ++ r.2)
    | Except.ok none => (1, g.2 ++ r.2)
    | Except.error _ => (1, g.2 ++ r.2)

/-- C4, code bug.  Valid `"WxH"` strings parse to `(W, H)` and malformed
ones are rejected before any network call, as the claim says — but on the
rejection path `main` prints the error message and falls off the end of
the function with a plain `return`, so the process terminates with exit
code 0, not the non-zero code the claim (and the spec's "non-zero on any
failure path") requires; the sibling failure path does call
`sys.exit(1)`. -/
theorem C4_size_parsing :
    main envNoModels "client-1"
        ⟨"a tetris block", none, none, 20, 7, "abc", -1, "./assets", "127.0.0.1", 8188⟩ =
      (0, [])
    ∧ parse_size "512x512" = some (512, 512)
    ∧ parse_size "64x128" = some (64, 128)
    ∧ parse_size "-64x128" = some (-64, 128)
    ∧ parse_size "abc" = none
    ∧ parse_size "axb" = none
    ∧ parse_size "512" = none
    ∧ parse_size "1x2x3" = none
    ∧ parse_size "12.5x40" = none
    ∧ parse_size "512x" = none := by
  refine ⟨rfl, ?_, ?_, ?_, ?_, ?_, ?_, ?_, ?_, ?_⟩ <;> decide

end ComfyGen
